import Mathlib

/-!
Shallow embedding of the PotionsMongoDB HTTP service (Express + Mongoose) and
proofs of the frozen claims about it.

Sources embedded:
- src/middleware.js        : authMiddleware (JWT cookie gate)
- src/router.js            : the /potions router (GET query surface, POST /potions)
- src/unnamed/part_000     : the /auth router (register, login, logout)
- src/server.js            : wiring only (not embedded)

Numbers that the JavaScript code treats as IEEE doubles are modelled as
rationals; the claims under verification do not depend on float rounding.
External state (the MongoDB store) is an explicit value threaded through each
handler; a possible store failure is injected through an explicit
`fault : Option String` argument, matching the try/catch structure of the
handlers.
-/

namespace PotionsApp

/-- ratings subdocument of a potion: `{ strength, flavor }`. -/
structure Ratings where
  strength : ℚ
  flavor : ℚ
  deriving Repr, DecidableEq

/-- A potion document (fields per the Swagger schema in src/router.js). -/
structure Potion where
  name : String
  price : ℚ
  score : ℚ
  ingredients : List String
  ratings : Ratings
  categories : List String
  vendor_id : String
  deriving Repr, DecidableEq

/-- A persisted user document: generated id, display name, stored password hash. -/
structure UserDoc where
  uid : String
  name : String
  passwordHash : String
  deriving Repr, DecidableEq

/-- The document store: the potion collection and the user collection. -/
structure Store where
  potions : List Potion
  users : List UserDoc
  deriving Repr, DecidableEq

/-! ## Auth middleware (src/middleware.js) -/

/-- `COOKIE_NAME` from src/middleware.js line 3. -/
def COOKIE_NAME : String := "demo_node+mongo_token"

/-- JWT claims payload: `{ id: user._id, name: user.name }` (src/unnamed/part_000 line 110). -/
structure Claims where
  id : String
  name : String
  deriving Repr, DecidableEq

/-- The value found under the cookie name: either a string or some non-string
JavaScript value (cookie-parser can yield parsed JSON objects). -/
inductive CookieValue
  | str (s : String)
  | nonString
  deriving Repr, DecidableEq

/-- Outcome of `jwt.verify`, as discriminated by src/middleware.js lines 18-24:
success, `TokenExpiredError`, `JsonWebTokenError`, or any other exception. -/
inductive VerifyResult
  | ok (c : Claims)
  | tokenExpiredError
  | jsonWebTokenError
  | otherError
  deriving Repr, DecidableEq

/-- Result of the middleware: either a terminal JSON rejection with an HTTP
status, or the request proceeds with the decoded claims attached as `req.user`. -/
inductive AuthOutcome
  | reject (status : Nat) (error : String)
  | proceed (user : Claims)
  deriving Repr, DecidableEq

/-- JavaScript `String.prototype.trim`: strip whitespace from both ends.
(Defined over the character list so that it reduces during kernel evaluation;
`String.trim` from core is equivalent on the inputs at hand but is compiled
with well-founded recursion.) -/
def jsTrim (s : String) : String :=
  String.mk (((s.data.dropWhile Char.isWhitespace).reverse.dropWhile
    Char.isWhitespace).reverse)

def msgMissingToken : String := "Token d’authentification manquant ou invalide"
def msgExpired : String := "Session expirée, veuillez vous reconnecter."
def msgInvalidToken : String := "Jeton non valide."
def msgAuthError : String := "Erreur d’authentification"

/-- `authMiddleware` from src/middleware.js lines 5-26.
`cookies` is `req.cookies?.[COOKIE_NAME]`; `verify` is `jwt.verify` applied to
the token and the process secret.  The guard
`!token || typeof token !== 'string' || token.trim() === ''` rejects an absent
cookie, a non-string value, and a blank string (a falsy `""` is also blank, so
the two JavaScript tests collapse to the same branch). -/
def authMiddleware (cookies : Option CookieValue) (verify : String → VerifyResult) :
    AuthOutcome :=
  match cookies with
  | none => .reject 401 msgMissingToken
  | some .nonString => .reject 401 msgMissingToken
  | some (.str s) =>
    if jsTrim s = "" then .reject 401 msgMissingToken
    else
      match verify s with
      | .ok c => .proceed c
      | .tokenExpiredError => .reject 401 msgExpired
      | .jsonWebTokenError => .reject 401 msgInvalidToken
      | .otherError => .reject 500 msgAuthError

/-- The cookie value is absent, blank, or not a string (the rejection guard of
src/middleware.js line 9). -/
def cookieMissing : Option CookieValue → Bool
  | none => true
  | some .nonString => true
  | some (.str s) => jsTrim s = ""

/-- C1: for every incoming request to the potion-creation endpoint the auth
middleware produces exactly one of four outcomes: a missing/blank/non-string
cookie is rejected 401 with the missing-token message; an expired token is
rejected 401 with an expiry message distinct from the invalid-token message; a
malformed/bad-signature token is rejected 401 with the invalid-token message;
any other verification failure yields 500; and only on success are the decoded
claims attached and the request allowed to proceed. -/
theorem c1_authMiddleware_outcomes (cookies : Option CookieValue)
    (verify : String → VerifyResult) :
    (cookieMissing cookies = true →
      authMiddleware cookies verify = .reject 401 msgMissingToken) ∧
    (∀ s, cookies = some (.str s) → cookieMissing cookies = false →
      (verify s = .tokenExpiredError →
        authMiddleware cookies verify = .reject 401 msgExpired) ∧
      (verify s = .jsonWebTokenError →
        authMiddleware cookies verify = .reject 401 msgInvalidToken) ∧
      (verify s = .otherError →
        authMiddleware cookies verify = .reject 500 msgAuthError) ∧
      (∀ c, verify s = .ok c → authMiddleware cookies verify = .proceed c)) ∧
    msgExpired ≠ msgInvalidToken ∧ msgExpired ≠ msgMissingToken ∧
    msgInvalidToken ≠ msgMissingToken := by
  refine ⟨?_, ?_, by decide, by decide, by decide⟩
  · intro hmiss
    match cookies with
    | none => rfl
    | some .nonString => rfl
    | some (.str s) =>
      simp only [cookieMissing, decide_eq_true_eq] at hmiss
      simp [authMiddleware, hmiss]
  · intro s hs hmiss
    subst hs
    simp only [cookieMissing, decide_eq_false_iff_not] at hmiss
    refine ⟨?_, ?_, ?_, ?_⟩
    · intro h; simp [authMiddleware, hmiss, h]
    · intro h; simp [authMiddleware, hmiss, h]
    · intro h; simp [authMiddleware, hmiss, h]
    · intro c h; simp [authMiddleware, hmiss, h]

/-- Witness for C1 at a concrete input: an expired token on a present,
non-blank cookie is rejected 401 with the expiry message. -/
theorem c1_authMiddleware_outcomes_witness :
    authMiddleware (some (.str "tok")) (fun _ => .tokenExpiredError) =
      .reject 401 msgExpired :=
  ((c1_authMiddleware_outcomes (some (.str "tok")) (fun _ => .tokenExpiredError)).2.1
    "tok" rfl (by decide)).1 rfl

/-! ## Registration (src/unnamed/part_000, POST /auth/register) -/

/-- The `escape()` sanitizer of express-validator: each HTML-significant
character is replaced by its entity; the sequential global replaces of the
library are equivalent to this per-character mapping. The apostrophe (code 39)
and backtick (code 96) are written by code point. -/
def escapeChar (c : Char) : String :=
  if c = '&' then "&amp;"
  else if c = '"' then "&quot;"
  else if c = Char.ofNat 39 then "&#x27;"
  else if c = '<' then "&lt;"
  else if c = '>' then "&gt;"
  else if c = '/' then "&#x2F;"
  else if c = '\\' then "&#x5C;"
  else if c = Char.ofNat 96 then "&#96;"
  else String.mk [c]

def escapeString (s : String) : String :=
  String.join (s.data.map escapeChar)

/-- The sanitized name: `body('name').trim().escape()` (src/unnamed/part_000
line 42). The sanitizers overwrite `req.body.name`, so this value is also the
one persisted. -/
def sanitizedName (rawName : String) : String := escapeString (jsTrim rawName)

def msgNameRequired : String := "Le nom d’utilisateur est requis."
def msgNameLength : String := "Doit faire entre 3 et 30 caractères."
def msgPasswordRequired : String := "Le mot de passe est requis."
def msgPasswordLength : String := "Minimum 6 caractères."

/-- Errors contributed by the `name` validator chain (src/unnamed/part_000
lines 42-44): `notEmpty` and `isLength {min 3, max 30}` both run on the
sanitized value and each failing validator contributes its message. -/
def nameValidationErrors (rawName : String) : List String :=
  (if sanitizedName rawName = "" then [msgNameRequired] else []) ++
  (if (sanitizedName rawName).length < 3 ∨ 30 < (sanitizedName rawName).length
    then [msgNameLength] else [])

/-- Errors contributed by the `password` validator chain (src/unnamed/part_000
lines 45-47): `notEmpty` and `isLength {min 6}` on the trimmed value. -/
def passwordValidationErrors (rawPassword : String) : List String :=
  (if jsTrim rawPassword = "" then [msgPasswordRequired] else []) ++
  (if (jsTrim rawPassword).length < 6 then [msgPasswordLength] else [])

/-- Modelled from the spec: `user.model.js` is not among the sources. §4.1
says the password is hashed with a salt before persistence and login compares
the raw password against the stored hash; the hash is abstracted as an
injective tagging function. -/
def hashPassword (raw : String) : String := "hash:" ++ raw

/-- Modelled from the spec: `user.comparePassword(password)` (§4.1
`verifyPassword`) — true exactly when the raw password hashes to the stored
hash. -/
def comparePassword (u : UserDoc) (raw : String) : Bool :=
  u.passwordHash == hashPassword raw

/-- Outcome of `new User({name, password}); await user.save()`. -/
inductive SaveOutcome
  | ok (newStore : Store)
  | dupKey
  | storeError (msg : String)
  deriving Repr, DecidableEq

/-- Modelled from the spec: `user.model.js` is not among the sources. §3: name
uniqueness is enforced by the store and a duplicate registration fails without
mutating state (the MongoDB duplicate-key error, `err.code === 11000`); §7: an
underlying persistence failure (StoreError) may also occur, injected here
through `fault`. On success one new user document is persisted with a
generated id and the hashed password. -/
def userSave (store : Store) (name password : String) (fault : Option String) :
    SaveOutcome :=
  match fault with
  | some msg => .storeError msg
  | none =>
    if store.users.any (fun u => u.name == name) then .dupKey
    else .ok { store with
      users := store.users ++ [⟨toString store.users.length, name, hashPassword password⟩] }

structure RegisterResponse where
  status : Nat
  errors : List String
  message : Option String
  error : Option String
  deriving Repr, DecidableEq

def msgSystemError : String := "Erreur système"
def msgUserCreated : String := "Utilisateur créé"

/-- `POST /auth/register` from src/unnamed/part_000 lines 41-65: if
`validationResult(req)` is non-empty, respond 400 with the full error array;
otherwise save the new user; a duplicate-key failure (`err.code === 11000`)
yields 500 with the generic system-error body, any other save failure yields
400 with the error message, and success yields 201. -/
def registerHandler (store : Store) (rawName rawPassword : String)
    (fault : Option String) : RegisterResponse × Store :=
  if (nameValidationErrors rawName ++ passwordValidationErrors rawPassword).isEmpty then
    match userSave store (sanitizedName rawName) (jsTrim rawPassword) fault with
    | .ok s2 => (⟨201, [], some msgUserCreated, none⟩, s2)
    | .dupKey => (⟨500, [], none, some msgSystemError⟩, store)
    | .storeError msg => (⟨400, [], none, some msg⟩, store)
  else
    (⟨400, nameValidationErrors rawName ++ passwordValidationErrors rawPassword,
      none, none⟩, store)

lemma msgNameLength_mem (rawName : String)
    (h : (sanitizedName rawName).length < 3 ∨ 30 < (sanitizedName rawName).length) :
    msgNameLength ∈ nameValidationErrors rawName := by
  unfold nameValidationErrors
  rw [if_pos h]
  exact List.mem_append.mpr (Or.inr (List.mem_singleton.mpr rfl))

lemma msgPasswordLength_mem (rawPassword : String)
    (h : (jsTrim rawPassword).length < 6) :
    msgPasswordLength ∈ passwordValidationErrors rawPassword := by
  unfold passwordValidationErrors
  rw [if_pos h]
  exact List.mem_append.mpr (Or.inr (List.mem_singleton.mpr rfl))

lemma isEmpty_false_of_mem {α : Type} {a : α} {l : List α} (h : a ∈ l) :
    l.isEmpty = false := by
  cases l with
  | nil => cases h
  | cons x xs => rfl

/-- C2: a registration whose sanitized name is shorter than 3 or longer than
30 characters, or whose trimmed password is shorter than 6 characters, gets a
400 response whose error array contains the message of every violated length
rule (both when both are violated), and no user document is persisted. -/
theorem c2_register_validation (store : Store) (rawName rawPassword : String)
    (fault : Option String)
    (hbad : (sanitizedName rawName).length < 3 ∨ 30 < (sanitizedName rawName).length ∨
      (jsTrim rawPassword).length < 6) :
    (registerHandler store rawName rawPassword fault).1.status = 400 ∧
    ((sanitizedName rawName).length < 3 ∨ 30 < (sanitizedName rawName).length →
      msgNameLength ∈ (registerHandler store rawName rawPassword fault).1.errors) ∧
    ((jsTrim rawPassword).length < 6 →
      msgPasswordLength ∈ (registerHandler store rawName rawPassword fault).1.errors) ∧
    (registerHandler store rawName rawPassword fault).2 = store := by
  have hne : (nameValidationErrors rawName ++
      passwordValidationErrors rawPassword).isEmpty = false := by
    rcases hbad with h | h | h
    · exact isEmpty_false_of_mem
        (List.mem_append.mpr (Or.inl (msgNameLength_mem rawName (Or.inl h))))
    · exact isEmpty_false_of_mem
        (List.mem_append.mpr (Or.inl (msgNameLength_mem rawName (Or.inr h))))
    · exact isEmpty_false_of_mem
        (List.mem_append.mpr (Or.inr (msgPasswordLength_mem rawPassword h)))
  have hreg : registerHandler store rawName rawPassword fault =
      (⟨400, nameValidationErrors rawName ++ passwordValidationErrors rawPassword,
        none, none⟩, store) := by
    unfold registerHandler
    rw [hne]
    simp
  rw [hreg]
  refine ⟨rfl, ?_, ?_, rfl⟩
  · intro h
    exact List.mem_append.mpr (Or.inl (msgNameLength_mem rawName h))
  · intro h
    exact List.mem_append.mpr (Or.inr (msgPasswordLength_mem rawPassword h))

/-- Witness for C2 at a concrete input: name "ab" (2 chars) and password "123"
(3 chars) are both invalid; the response is 400, reports both length rules,
and the store is untouched. -/
theorem c2_register_validation_witness :
    (registerHandler ⟨[], []⟩ "ab" "123" none).1.status = 400 ∧
    ((sanitizedName "ab").length < 3 ∨ 30 < (sanitizedName "ab").length →
      msgNameLength ∈ (registerHandler ⟨[], []⟩ "ab" "123" none).1.errors) ∧
    ((jsTrim "123").length < 6 →
      msgPasswordLength ∈ (registerHandler ⟨[], []⟩ "ab" "123" none).1.errors) ∧
    (registerHandler ⟨[], []⟩ "ab" "123" none).2 = ⟨[], []⟩ :=
  c2_register_validation ⟨[], []⟩ "ab" "123" none (by decide)

/-- C3: if the store already holds exactly one user document under the
(sanitized) requested name and the request is otherwise valid, the duplicate
registration is answered with the generic 500 system error — a constant body
naming no field — and the store is unchanged, still holding exactly one
document for that name. -/
theorem c3_duplicate_registration (store : Store) (rawName rawPassword : String)
    (hvalidN : nameValidationErrors rawName = [])
    (hvalidP : passwordValidationErrors rawPassword = [])
    (hone : (store.users.filter (fun u => u.name == sanitizedName rawName)).length = 1) :
    (registerHandler store rawName rawPassword none).1.status = 500 ∧
    (registerHandler store rawName rawPassword none).1.error = some msgSystemError ∧
    (registerHandler store rawName rawPassword none).1.errors = [] ∧
    (registerHandler store rawName rawPassword none).2 = store ∧
    ((registerHandler store rawName rawPassword none).2.users.filter
      (fun u => u.name == sanitizedName rawName)).length = 1 := by
  have hfne : store.users.filter (fun u => u.name == sanitizedName rawName) ≠ [] := by
    intro h
    rw [h] at hone
    cases hone
  obtain ⟨u, hu⟩ := List.exists_mem_of_ne_nil _ hfne
  have humem := List.mem_filter.mp hu
  have hany : store.users.any (fun u => u.name == sanitizedName rawName) = true :=
    List.any_eq_true.mpr ⟨u, humem.1, humem.2⟩
  have hreg : registerHandler store rawName rawPassword none =
      (⟨500, [], none, some msgSystemError⟩, store) := by
    unfold registerHandler
    rw [hvalidN, hvalidP]
    simp [userSave, hany]
  rw [hreg]
  exact ⟨rfl, rfl, rfl, rfl, hone⟩

/-- Witness for C3 at a concrete input: the store already holds one user named
"bob"; re-registering "bob" yields the 500 system error and leaves the single
document in place. -/
theorem c3_duplicate_registration_witness :
    (registerHandler ⟨[], [⟨"0", "bob", "hash:pw1"⟩]⟩ "bob" "secret1" none).1.status = 500 ∧
    (registerHandler ⟨[], [⟨"0", "bob", "hash:pw1"⟩]⟩ "bob" "secret1" none).1.error =
      some msgSystemError ∧
    (registerHandler ⟨[], [⟨"0", "bob", "hash:pw1"⟩]⟩ "bob" "secret1" none).1.errors = [] ∧
    (registerHandler ⟨[], [⟨"0", "bob", "hash:pw1"⟩]⟩ "bob" "secret1" none).2 =
      ⟨[], [⟨"0", "bob", "hash:pw1"⟩]⟩ ∧
    ((registerHandler ⟨[], [⟨"0", "bob", "hash:pw1"⟩]⟩ "bob" "secret1" none).2.users.filter
      (fun u => u.name == sanitizedName "bob")).length = 1 :=
  c3_duplicate_registration ⟨[], [⟨"0", "bob", "hash:pw1"⟩]⟩ "bob" "secret1"
    (by decide) (by decide) (by decide)

/-! ## Login (src/unnamed/part_000, POST /auth/login) -/

/-- Modelled from the spec: `jsonwebtoken` is an external library. §4.2:
`issue(claims, ttl)` produces a signed, self-contained token encoding the
claims and an expiry `now + ttl`; verification decodes the claims. The token
is abstracted as the signed claim set with its TTL. -/
structure SignedToken where
  claims : Claims
  expiresInSeconds : Nat
  deriving Repr, DecidableEq

/-- `jwt.sign(payload, JWT_SECRET, { expiresIn })` (src/unnamed/part_000
line 110; `1d` = 86400 seconds). -/
def jwtSign (c : Claims) (expiresInSeconds : Nat) : SignedToken :=
  ⟨c, expiresInSeconds⟩

/-- Decoding the claims back out of a signed token (what `jwt.verify` returns
on success). -/
def decodeClaims (t : SignedToken) : Claims := t.claims

/-- The `Set-Cookie` produced by `res.cookie(COOKIE_NAME, token, opts)`
(src/unnamed/part_000 lines 112-117). -/
structure SetCookie where
  cookieName : String
  value : SignedToken
  httpOnly : Bool
  sameSite : String
  secure : Bool
  maxAgeMs : Nat
  deriving Repr, DecidableEq

structure LoginResponse where
  status : Nat
  cookie : Option SetCookie
  deriving Repr, DecidableEq

/-- `POST /auth/login` from src/unnamed/part_000 lines 101-120: look the user
up by name; if absent or the password comparison fails, 401 with no cookie;
otherwise sign `{id, name}` for one day and set the cookie with
`httpOnly: true, sameSite: "strict", secure: false, maxAge: 24*60*60*1000`. -/
def loginHandler (store : Store) (name password : String) : LoginResponse :=
  match store.users.find? (fun u => u.name == name) with
  | none => ⟨401, none⟩
  | some u =>
    if comparePassword u password then
      ⟨200, some ⟨COOKIE_NAME, jwtSign ⟨u.uid, u.name⟩ 86400, true, "strict", false,
        24 * 60 * 60 * 1000⟩⟩
    else ⟨401, none⟩

/-- C4: logging in as a registered user with the password whose hash is
stored answers 200 and sets, under the fixed cookie name, a signed token whose
decoded subject name is the registered name, HTTP-only, with strict same-site
and a 24-hour lifetime; a wrong password or an unknown name answers 401 with
no cookie. -/
theorem c4_login (store : Store) (name password : String) :
    (∀ u, store.users.find? (fun x => x.name == name) = some u →
      (comparePassword u password = true →
        ∃ ck, loginHandler store name password = ⟨200, some ck⟩ ∧
          ck.cookieName = COOKIE_NAME ∧
          (decodeClaims ck.value).name = name ∧
          ck.httpOnly = true ∧ ck.sameSite = "strict" ∧
          ck.maxAgeMs = 24 * 60 * 60 * 1000 ∧
          ck.value.expiresInSeconds = 86400) ∧
      (comparePassword u password = false →
        loginHandler store name password = ⟨401, none⟩)) ∧
    (store.users.find? (fun x => x.name == name) = none →
      loginHandler store name password = ⟨401, none⟩) := by
  constructor
  · intro u hfind
    have hname : u.name = name := by
      have := List.find?_some hfind
      exact eq_of_beq this
    constructor
    · intro hcmp
      refine ⟨⟨COOKIE_NAME, jwtSign ⟨u.uid, u.name⟩ 86400, true, "strict", false,
        24 * 60 * 60 * 1000⟩, ?_, rfl, hname, rfl, rfl, rfl, rfl⟩
      unfold loginHandler
      rw [hfind]
      simp [hcmp]
    · intro hcmp
      unfold loginHandler
      rw [hfind]
      simp [hcmp]
  · intro hfind
    unfold loginHandler
    rw [hfind]

/-- Witness for C4 at a concrete input: the registered user "bob" with
password "pw1" logs in and gets the cookie with the required attributes. -/
theorem c4_login_witness :
    ∃ ck, loginHandler ⟨[], [⟨"0", "bob", hashPassword "pw1"⟩]⟩ "bob" "pw1" =
        ⟨200, some ck⟩ ∧
      ck.cookieName = COOKIE_NAME ∧
      (decodeClaims ck.value).name = "bob" ∧
      ck.httpOnly = true ∧ ck.sameSite = "strict" ∧
      ck.maxAgeMs = 24 * 60 * 60 * 1000 ∧
      ck.value.expiresInSeconds = 86400 :=
  ((c4_login ⟨[], [⟨"0", "bob", hashPassword "pw1"⟩]⟩ "bob" "pw1").1
    ⟨"0", "bob", hashPassword "pw1"⟩ (by decide)).1 (by decide)

/-! ## Potion query surface (src/router.js, GET handlers)

Every handler has the shape `try { const r = await query; res.json(r) } catch
(err) { res.status(500).json({error: err.message}) }`. The possible store
failure is injected through `fault : Option String`; each handler returns its
response together with the (unchanged) store. -/

/-- A JSON response: HTTP status, a typed body for the 200 case, and the
`{error}` body for the failure case. -/
structure Resp (α : Type) where
  status : Nat
  body : α
  error : Option String
  deriving Repr, DecidableEq

/-- `GET /potions` (src/router.js lines 20-27): `Potion.find()`. -/
def getPotionsHandler (store : Store) (fault : Option String) :
    Resp (List Potion) × Store :=
  match fault with
  | some msg => (⟨500, [], some msg⟩, store)
  | none => (⟨200, store.potions, none⟩, store)

/-- `GET /potions/names` (src/router.js lines 43-50): project to `name` and
return the array of strings. -/
def getNamesHandler (store : Store) (fault : Option String) :
    Resp (List String) × Store :=
  match fault with
  | some msg => (⟨500, [], some msg⟩, store)
  | none => (⟨200, store.potions.map (fun p => p.name), none⟩, store)

/-- `GET /potions/vendor/:vendor_id` (src/router.js lines 73-81):
`Potion.find({vendor_id})`, an exact match. -/
def getVendorHandler (store : Store) (vendorId : String) (fault : Option String) :
    Resp (List Potion) × Store :=
  match fault with
  | some msg => (⟨500, [], some msg⟩, store)
  | none => (⟨200, store.potions.filter (fun p => p.vendor_id == vendorId), none⟩, store)

/-- `Potion.find({ price: { $gte: parseFloat(min), $lte: parseFloat(max) } })`
(src/router.js line 113). A query parameter that is absent or not parseable as
a number is modelled as `none` (JavaScript `parseFloat` yields `NaN` there);
modelled from the spec for the store side: `potion.model.js` is not among the
sources, and §4.5 records that such a value makes the store query itself fail
(a cast/query error) rather than a validation error. -/
def priceRangeFind (store : Store) (minQ maxQ : Option ℚ) :
    Except String (List Potion) :=
  match minQ, maxQ with
  | some mn, some mx =>
    .ok (store.potions.filter (fun p => decide (mn ≤ p.price ∧ p.price ≤ mx)))
  | _, _ => .error "Cast to Number failed"

/-- `GET /potions/price-range?min=&max=` (src/router.js lines 110-118). -/
def priceRangeHandler (store : Store) (minQ maxQ : Option ℚ) (fault : Option String) :
    Resp (List Potion) × Store :=
  match fault with
  | some msg => (⟨500, [], some msg⟩, store)
  | none =>
    match priceRangeFind store minQ maxQ with
    | .ok docs => (⟨200, docs, none⟩, store)
    | .error msg => (⟨500, [], some msg⟩, store)

/-- C5: with numeric `min` and `max`, the price-range endpoint returns exactly
the potions whose price lies in the closed interval `[min, max]` — boundary
prices included, everything outside excluded — with status 200. -/
theorem c5_price_range_inclusive (store : Store) (mn mx : ℚ) :
    (priceRangeHandler store (some mn) (some mx) none).1.status = 200 ∧
    ∀ p, p ∈ (priceRangeHandler store (some mn) (some mx) none).1.body ↔
      p ∈ store.potions ∧ mn ≤ p.price ∧ p.price ≤ mx := by
  refine ⟨rfl, fun p => ?_⟩
  show p ∈ store.potions.filter (fun p => decide (mn ≤ p.price ∧ p.price ≤ mx)) ↔ _
  rw [List.mem_filter]
  simp

/-- C6: when `min` or `max` is absent or unparseable (a `NaN` bound), the
failure surfaces as a store/query error with status 500 — the handler has no
400 validation branch at all. -/
theorem c6_price_range_bad_params (store : Store) (q : Option ℚ) :
    (priceRangeHandler store none q none).1.status = 500 ∧
    (priceRangeHandler store q none none).1.status = 500 ∧
    (priceRangeHandler store none q none).1.status ≠ 400 ∧
    (priceRangeHandler store q none none).1.status ≠ 400 := by
  cases q <;> refine ⟨rfl, rfl, ?_, ?_⟩ <;> · show (500 : Nat) ≠ 400; decide

/-! ## Analytics endpoints (src/router.js) -/

/-- Average of a list of rationals (`$avg` over a non-empty group). -/
def listAvg (l : List ℚ) : ℚ := l.sum / l.length

/-- `{$unwind: "$categories"}` (src/router.js line 185): one output document
per category entry, carrying the potion's score. -/
def unwindCategories (docs : List Potion) : List (String × ℚ) :=
  docs.flatMap (fun p => p.categories.map (fun c => (c, p.score)))

/-- One `$group` output row: `{_id, averageScore}`. -/
structure GroupRow where
  gid : String
  averageScore : ℚ
  deriving Repr, DecidableEq

/-- The pipeline of `GET /potions/analytics/average-score-by-category`
(src/router.js lines 184-187): `$unwind` on categories, then
`{$group: {_id: "$categories", averageScore: {$avg: "$score"}}}` — one group
per distinct category value of the unwound stream. -/
def avgScoreByCategory (docs : List Potion) : List GroupRow :=
  ((unwindCategories docs).map Prod.fst).dedup.map (fun c =>
    ⟨c, listAvg (((unwindCategories docs).filter (fun pr => pr.1 == c)).map Prod.snd)⟩)

/-- The pipeline of `GET /potions/analytics/average-score-by-vendor`
(src/router.js lines 159-161): `{$group: {_id: "$vendor_id",
averageScore: {$avg: "$score"}}}`. -/
def avgScoreByVendor (docs : List Potion) : List GroupRow :=
  (docs.map (fun p => p.vendor_id)).dedup.map (fun v =>
    ⟨v, listAvg ((docs.filter (fun p => p.vendor_id == v)).map (fun p => p.score))⟩)

/-- `Potion.distinct('categories')` (src/router.js line 136): the distinct
values across the array field, duplicates collapsed. -/
def distinctCategories (docs : List Potion) : List String :=
  (docs.flatMap (fun p => p.categories)).dedup

/-- `GET /potions/analytics/distinct-categories` (src/router.js lines
134-141): responds with the count of distinct category values. -/
def distinctCategoriesHandler (store : Store) (fault : Option String) :
    Resp Nat × Store :=
  match fault with
  | some msg => (⟨500, 0, some msg⟩, store)
  | none => (⟨200, (distinctCategories store.potions).length, none⟩, store)

/-- `GET /potions/analytics/average-score-by-vendor` (src/router.js lines
157-166). -/
def avgScoreByVendorHandler (store : Store) (fault : Option String) :
    Resp (List GroupRow) × Store :=
  match fault with
  | some msg => (⟨500, [], some msg⟩, store)
  | none => (⟨200, avgScoreByVendor store.potions, none⟩, store)

/-- `GET /potions/analytics/average-score-by-category` (src/router.js lines
182-192). -/
def avgScoreByCategoryHandler (store : Store) (fault : Option String) :
    Resp (List GroupRow) × Store :=
  match fault with
  | some msg => (⟨500, [], some msg⟩, store)
  | none => (⟨200, avgScoreByCategory store.potions, none⟩, store)

/-- `GET /potions/analytics/strength-flavor-ratio` (src/router.js lines
208-217): `$project` each document to `{name, $divide: [strength, flavor]}`.
(MongoDB raises on a zero divisor and the spec leaves that case unspecified;
rational division-by-zero yields 0 here, a case no claim depends on.) -/
def strengthFlavorHandler (store : Store) (fault : Option String) :
    Resp (List (String × ℚ)) × Store :=
  match fault with
  | some msg => (⟨500, [], some msg⟩, store)
  | none =>
    (⟨200, store.potions.map
      (fun p => (p.name, p.ratings.strength / p.ratings.flavor)), none⟩, store)

/-- C7: the average-score-by-category endpoint fans a potion out to one group
per category it lists — the result has one group per category value occurring
in the collection — and on two documents with categories
`[shared, only1]` and `[shared, only2]` it produces exactly three groups:
the shared category averaging both scores and each unshared category carrying
its own document's score. -/
theorem c7_avg_score_by_category (docs : List Potion) (users : List UserDoc)
    (d1 d2 : Potion)
    (h1 : d1.categories = ["shared", "only1"])
    (h2 : d2.categories = ["shared", "only2"]) :
    (avgScoreByCategoryHandler ⟨docs, users⟩ none).1.body = avgScoreByCategory docs ∧
    (∀ c, c ∈ (avgScoreByCategory docs).map GroupRow.gid ↔
      ∃ p, p ∈ docs ∧ c ∈ p.categories) ∧
    (avgScoreByCategory [d1, d2]).length = 3 ∧
    GroupRow.mk "shared" ((d1.score + d2.score) / 2) ∈ avgScoreByCategory [d1, d2] ∧
    GroupRow.mk "only1" d1.score ∈ avgScoreByCategory [d1, d2] ∧
    GroupRow.mk "only2" d2.score ∈ avgScoreByCategory [d1, d2] := by
  have hu : unwindCategories [d1, d2] =
      [("shared", d1.score), ("only1", d1.score),
       ("shared", d2.score), ("only2", d2.score)] := by
    simp [unwindCategories, h1, h2]
  have h3 : avgScoreByCategory [d1, d2] =
      [⟨"only1", listAvg [d1.score]⟩,
       ⟨"shared", listAvg [d1.score, d2.score]⟩,
       ⟨"only2", listAvg [d2.score]⟩] := by
    unfold avgScoreByCategory
    rw [hu]
    rfl
  have havg1 : listAvg [d1.score] = d1.score := by
    simp [listAvg]
  have havg2 : listAvg [d2.score] = d2.score := by
    simp [listAvg]
  have havg12 : listAvg [d1.score, d2.score] = (d1.score + d2.score) / 2 := by
    simp [listAvg]
  refine ⟨rfl, ?_, ?_, ?_, ?_, ?_⟩
  · intro c
    simp only [avgScoreByCategory, List.map_map, Function.comp, List.mem_map,
      List.mem_dedup, unwindCategories, List.mem_flatMap]
    aesop
  · rw [h3]; rfl
  · rw [h3, havg12]
    exact List.mem_cons.mpr (Or.inr (List.mem_cons.mpr (Or.inl rfl)))
  · rw [h3, havg1]
    exact List.mem_cons.mpr (Or.inl rfl)
  · rw [h3, havg2]
    exact List.mem_cons.mpr (Or.inr (List.mem_cons.mpr
      (Or.inr (List.mem_cons.mpr (Or.inl rfl)))))

/-- Witness for C7 at a concrete input: two potions with categories
`["shared", "only1"]` (score 4) and `["shared", "only2"]` (score 8) produce
three groups, with 6 as the shared average. -/
theorem c7_avg_score_by_category_witness :
    GroupRow.mk "shared" ((4 + 8) / 2) ∈ avgScoreByCategory
      [⟨"p1", 10, 4, [], ⟨1, 1⟩, ["shared", "only1"], "v1"⟩,
       ⟨"p2", 20, 8, [], ⟨1, 1⟩, ["shared", "only2"], "v2"⟩] ∧
    (avgScoreByCategory
      [⟨"p1", 10, 4, [], ⟨1, 1⟩, ["shared", "only1"], "v1"⟩,
       ⟨"p2", 20, 8, [], ⟨1, 1⟩, ["shared", "only2"], "v2"⟩]).length = 3 :=
  ⟨(c7_avg_score_by_category
      [⟨"p1", 10, 4, [], ⟨1, 1⟩, ["shared", "only1"], "v1"⟩,
       ⟨"p2", 20, 8, [], ⟨1, 1⟩, ["shared", "only2"], "v2"⟩] []
      ⟨"p1", 10, 4, [], ⟨1, 1⟩, ["shared", "only1"], "v1"⟩
      ⟨"p2", 20, 8, [], ⟨1, 1⟩, ["shared", "only2"], "v2"⟩ rfl rfl).2.2.2.1,
   (c7_avg_score_by_category
      [⟨"p1", 10, 4, [], ⟨1, 1⟩, ["shared", "only1"], "v1"⟩,
       ⟨"p2", 20, 8, [], ⟨1, 1⟩, ["shared", "only2"], "v2"⟩] []
      ⟨"p1", 10, 4, [], ⟨1, 1⟩, ["shared", "only1"], "v1"⟩
      ⟨"p2", 20, 8, [], ⟨1, 1⟩, ["shared", "only2"], "v2"⟩ rfl rfl).2.2.1⟩

/-! ## Generic analytics search (src/router.js, GET /analytics/search) -/

/-- A BSON value as it appears in a potion document field. -/
inductive BsonValue
  | bstr (s : String)
  | bnum (q : ℚ)
  | barr (l : List String)
  | bnull
  deriving Repr, DecidableEq

/-- Dynamic field access `"$" ++ f` on a potion document, as the aggregation
pipeline resolves the interpolated field path; an unknown path yields the
missing value. -/
def Potion.getField (p : Potion) (f : String) : BsonValue :=
  if f = "name" then .bstr p.name
  else if f = "price" then .bnum p.price
  else if f = "score" then .bnum p.score
  else if f = "vendor_id" then .bstr p.vendor_id
  else if f = "ingredients" then .barr p.ingredients
  else if f = "categories" then .barr p.categories
  else .bnull

def numValue : BsonValue → Option ℚ
  | .bnum q => some q
  | _ => none

/-- The caller-built pipeline
`[{$group: {_id: "$groupBy", [metric]: {["$" + metric]: "$field"}}}]`
(src/router.js lines 262-264): group the documents by the `groupBy` field and
fold the `field` values with the accumulator named by `metric`. `$avg` and
`$sum` ignore non-numeric values ( `$sum` of none is 0); any other
interpolated accumulator name makes the aggregation itself fail, which the
handler surfaces as 500. -/
def searchAggregate (docs : List Potion) (groupBy metric field : String) :
    Except String (List (BsonValue × ℚ)) :=
  if metric = "avg" ∨ metric = "sum" then
    .ok ((docs.map (fun p => p.getField groupBy)).dedup.map (fun k =>
      let nums := ((docs.filter (fun p => p.getField groupBy == k)).map
        (fun p => numValue (p.getField field))).reduceOption
      (k, if metric = "avg" then listAvg nums else nums.sum)))
  else .error ("Unrecognized expression " ++ "$" ++ metric)

/-- A query parameter as seen by the destructuring on src/router.js line 256:
absent, or present with a string value; JavaScript treats both `undefined` and
the empty string as falsy in the guard on line 258. -/
def isBlankParam : Option String → Bool
  | none => true
  | some s => s == ""

/-- Response of the search endpoint; `queryIssued` records whether
`Potion.aggregate` was reached. -/
structure SearchResp where
  status : Nat
  queryIssued : Bool
  rows : List (BsonValue × ℚ)
  error : Option String
  deriving Repr, DecidableEq

def msgMissingParams : String :=
  "Missing required query parameters: groupBy, metric, field"

/-- `GET /potions/analytics/search` (src/router.js lines 254-271): if any of
`groupBy`, `metric`, `field` is missing or empty, respond 400 before any store
access; otherwise run the caller-built aggregation, 200 on success and 500 on
any failure (including a store fault). -/
def analyticsSearchHandler (store : Store)
    (groupBy metric field : Option String) (fault : Option String) :
    SearchResp × Store :=
  if isBlankParam groupBy || isBlankParam metric || isBlankParam field then
    (⟨400, false, [], some msgMissingParams⟩, store)
  else
    match fault with
    | some msg => (⟨500, true, [], some msg⟩, store)
    | none =>
      match searchAggregate store.potions (groupBy.getD "") (metric.getD "")
        (field.getD "") with
      | .ok rows => (⟨200, true, rows, none⟩, store)
      | .error msg => (⟨500, true, [], some msg⟩, store)

/-- C8: whenever `groupBy`, `metric` or `field` is missing or empty, the
search endpoint answers 400 with an error body and issues no store query. -/
theorem c8_search_missing_params (store : Store)
    (groupBy metric field : Option String) (fault : Option String)
    (hblank : isBlankParam groupBy = true ∨ isBlankParam metric = true ∨
      isBlankParam field = true) :
    (analyticsSearchHandler store groupBy metric field fault).1.status = 400 ∧
    (analyticsSearchHandler store groupBy metric field fault).1.error =
      some msgMissingParams ∧
    (analyticsSearchHandler store groupBy metric field fault).1.queryIssued = false ∧
    (analyticsSearchHandler store groupBy metric field fault).2 = store := by
  have hguard : (isBlankParam groupBy || isBlankParam metric ||
      isBlankParam field) = true := by
    rcases hblank with h | h | h <;> simp [h]
  unfold analyticsSearchHandler
  rw [hguard]
  exact ⟨rfl, rfl, rfl, rfl⟩

/-- Witness for C8 at a concrete input: `metric` present but empty, the other
parameters present, yields 400 with the error body and no query. -/
theorem c8_search_missing_params_witness :
    (analyticsSearchHandler ⟨[], []⟩ (some "vendor_id") (some "") (some "score")
      none).1.status = 400 ∧
    (analyticsSearchHandler ⟨[], []⟩ (some "vendor_id") (some "") (some "score")
      none).1.error = some msgMissingParams ∧
    (analyticsSearchHandler ⟨[], []⟩ (some "vendor_id") (some "") (some "score")
      none).1.queryIssued = false ∧
    (analyticsSearchHandler ⟨[], []⟩ (some "vendor_id") (some "") (some "score")
      none).2 = ⟨[], []⟩ :=
  c8_search_missing_params ⟨[], []⟩ (some "vendor_id") (some "") (some "score")
    none (Or.inr (Or.inl (by decide)))

/-! ## Potion creation (src/router.js, POST /potions) -/

structure PostPotionResp where
  status : Nat
  body : Option Potion
  error : Option String
  deriving Repr, DecidableEq

/-- `new Potion(req.body); await newPotion.save()` (src/router.js lines
330-331). §4.5: creation validates nothing beyond the store's structural
typing, and a `Potion` value here is already structurally typed, so only an
injected store failure makes the save fail; on success the document is
appended to the collection. -/
def potionSave (store : Store) (p : Potion) (fault : Option String) :
    Except String Store :=
  match fault with
  | some msg => .error msg
  | none => .ok { store with potions := store.potions ++ [p] }

/-- `POST /potions` (src/router.js lines 328-336), behind `authMiddleware`:
201 with the saved document on success; any save failure — store failures
included — is answered 400 with the error message (the handler catch has no
500 branch). -/
def postPotionsHandler (store : Store) (cookies : Option CookieValue)
    (verify : String → VerifyResult) (body : Potion) (fault : Option String) :
    PostPotionResp × Store :=
  match authMiddleware cookies verify with
  | .reject st msg => (⟨st, none, some msg⟩, store)
  | .proceed _ =>
    match potionSave store body fault with
    | .ok s2 => (⟨201, some body, none⟩, s2)
    | .error msg => (⟨400, none, some msg⟩, store)

/-- Counterexample to C9 as stated: at a concrete request with a valid
session cookie and a failing store, `POST /potions` answers 400, not the 500
the claim requires. -/
theorem c9_counterexample_post_potions_400 :
    (postPotionsHandler ⟨[], []⟩ (some (.str "tok"))
      (fun _ => .ok ⟨"1", "bob"⟩) ⟨"p", 1, 1, [], ⟨1, 1⟩, [], "v"⟩
      (some "connection lost")).1.status = 400 ∧
    (400 : Nat) ≠ 500 :=
  ⟨rfl, by decide⟩

/-- C9 amended: store failures on the GET surface are surfaced as 500, and a
duplicate-key store failure during `POST /auth/register` is surfaced as 500;
but a store failure during `POST /potions` is answered 400, and a
non-duplicate store failure during `POST /auth/register` is answered 400. -/
theorem c9_amended_store_failures (store : Store) (msg : String) (p : Potion)
    (cookies : Option CookieValue) (verify : String → VerifyResult) (u : Claims)
    (rawName rawPassword vendorId : String) (mn mx : ℚ)
    (hauth : authMiddleware cookies verify = .proceed u)
    (hvalidN : nameValidationErrors rawName = [])
    (hvalidP : passwordValidationErrors rawPassword = []) :
    (postPotionsHandler store cookies verify p (some msg)).1.status = 400 ∧
    (registerHandler store rawName rawPassword (some msg)).1.status = 400 ∧
    (store.users.any (fun x => x.name == sanitizedName rawName) = true →
      (registerHandler store rawName rawPassword none).1.status = 500) ∧
    (getPotionsHandler store (some msg)).1.status = 500 ∧
    (getNamesHandler store (some msg)).1.status = 500 ∧
    (getVendorHandler store vendorId (some msg)).1.status = 500 ∧
    (priceRangeHandler store (some mn) (some mx) (some msg)).1.status = 500 ∧
    (distinctCategoriesHandler store (some msg)).1.status = 500 ∧
    (avgScoreByVendorHandler store (some msg)).1.status = 500 ∧
    (avgScoreByCategoryHandler store (some msg)).1.status = 500 ∧
    (strengthFlavorHandler store (some msg)).1.status = 500 ∧
    (analyticsSearchHandler store (some "vendor_id") (some "avg") (some "score")
      (some msg)).1.status = 500 := by
  refine ⟨?_, ?_, ?_, rfl, rfl, rfl, rfl, rfl, rfl, rfl, rfl, rfl⟩
  · unfold postPotionsHandler
    rw [hauth]
    rfl
  · unfold registerHandler
    rw [hvalidN, hvalidP]
    rfl
  · intro hany
    unfold registerHandler
    rw [hvalidN, hvalidP]
    simp [userSave, hany]

/-- Witness for the amended C9 at concrete inputs: a failing store makes
`POST /potions` answer 400 and the duplicate registration of "bob" answer
500, while `GET /potions` answers 500. -/
theorem c9_amended_store_failures_witness :
    (postPotionsHandler ⟨[], [⟨"0", "bob", "hash:pw1"⟩]⟩ (some (.str "tok"))
      (fun _ => .ok ⟨"0", "bob"⟩) ⟨"p", 1, 1, [], ⟨1, 1⟩, [], "v"⟩
      (some "connection lost")).1.status = 400 ∧
    (registerHandler ⟨[], [⟨"0", "bob", "hash:pw1"⟩]⟩ "bob" "secret1"
      (some "connection lost")).1.status = 400 ∧
    ((⟨[], [⟨"0", "bob", "hash:pw1"⟩]⟩ : Store).users.any
        (fun x => x.name == sanitizedName "bob") = true →
      (registerHandler ⟨[], [⟨"0", "bob", "hash:pw1"⟩]⟩ "bob" "secret1"
        none).1.status = 500) ∧
    (getPotionsHandler ⟨[], [⟨"0", "bob", "hash:pw1"⟩]⟩
      (some "connection lost")).1.status = 500 ∧
    (getNamesHandler ⟨[], [⟨"0", "bob", "hash:pw1"⟩]⟩
      (some "connection lost")).1.status = 500 ∧
    (getVendorHandler ⟨[], [⟨"0", "bob", "hash:pw1"⟩]⟩ "v1"
      (some "connection lost")).1.status = 500 ∧
    (priceRangeHandler ⟨[], [⟨"0", "bob", "hash:pw1"⟩]⟩ (some 1) (some 2)
      (some "connection lost")).1.status = 500 ∧
    (distinctCategoriesHandler ⟨[], [⟨"0", "bob", "hash:pw1"⟩]⟩
      (some "connection lost")).1.status = 500 ∧
    (avgScoreByVendorHandler ⟨[], [⟨"0", "bob", "hash:pw1"⟩]⟩
      (some "connection lost")).1.status = 500 ∧
    (avgScoreByCategoryHandler ⟨[], [⟨"0", "bob", "hash:pw1"⟩]⟩
      (some "connection lost")).1.status = 500 ∧
    (strengthFlavorHandler ⟨[], [⟨"0", "bob", "hash:pw1"⟩]⟩
      (some "connection lost")).1.status = 500 ∧
    (analyticsSearchHandler ⟨[], [⟨"0", "bob", "hash:pw1"⟩]⟩ (some "vendor_id")
      (some "avg") (some "score") (some "connection lost")).1.status = 500 :=
  c9_amended_store_failures ⟨[], [⟨"0", "bob", "hash:pw1"⟩]⟩ "connection lost"
    ⟨"p", 1, 1, [], ⟨1, 1⟩, [], "v"⟩ (some (.str "tok"))
    (fun _ => .ok ⟨"0", "bob"⟩) ⟨"0", "bob"⟩ "bob" "secret1" "v1" 1 2
    rfl (by decide) (by decide)

/-- C10: every GET handler of the potion surface — the full listing, the names
projection, the vendor filter, the price range, and all the analytics
endpoints (distinct categories, both score averages, the strength/flavor
quotient, and the generic search) — returns the store unchanged, whether the
request succeeds or fails. -/
theorem c10_get_handlers_frame (store : Store) (fault : Option String)
    (vendorId : String) (minQ maxQ : Option ℚ) (g m f : Option String) :
    (getPotionsHandler store fault).2 = store ∧
    (getNamesHandler store fault).2 = store ∧
    (getVendorHandler store vendorId fault).2 = store ∧
    (priceRangeHandler store minQ maxQ fault).2 = store ∧
    (distinctCategoriesHandler store fault).2 = store ∧
    (avgScoreByVendorHandler store fault).2 = store ∧
    (avgScoreByCategoryHandler store fault).2 = store ∧
    (strengthFlavorHandler store fault).2 = store ∧
    (analyticsSearchHandler store g m f fault).2 = store := by
  refine ⟨?_, ?_, ?_, ?_, ?_, ?_, ?_, ?_, ?_⟩
  · cases fault <;> rfl
  · cases fault <;> rfl
  · cases fault <;> rfl
  · cases fault with
    | none => cases minQ <;> cases maxQ <;> rfl
    | some msg => rfl
  · cases fault <;> rfl
  · cases fault <;> rfl
  · cases fault <;> rfl
  · cases fault <;> rfl
  · unfold analyticsSearchHandler
    split
    · rfl
    · cases fault with
      | some msg => rfl
      | none =>
        cases hagg : searchAggregate store.potions (g.getD "") (m.getD "")
            (f.getD "") <;>
          simp [hagg]

end PotionsApp
